import Mathlib

/-!
Verification development for the vapi-health-agent repository: a webhook
dispatcher (Express server in `index.js`, given as `src/unnamed/part_000`)
that routes Vapi tool-call batches to two handlers
(`src/unnamed/part_002` = `tools/log_health_status.js`,
`src/tools/schedule_followup.js`), plus the deployment script
(`src/deploy.js`) whose inlined code-tool bodies form a second variant of
each handler.

The embedding is shallow: JSON values are an inductive type, the JS
`JSON.parse` builtin is modelled by a fuel-indexed recursive descent
routine, thrown JS exceptions are `Except.error` carrying the error
message, and each outbound HTTP interaction is represented by an oracle
argument describing the remote service's response.  Handlers are given the
request they issue alongside the value they return, so that theorems can
speak about what was submitted.
-/

/-- JSON values, as produced by the JS `JSON.parse` builtin.  Numerals are
restricted to integers, which covers every argument payload the tools
declare. -/
inductive Json where
  | null : Json
  | bool (b : Bool) : Json
  | num (n : Int) : Json
  | str (s : String) : Json
  | arr (xs : List Json) : Json
  | obj (fields : List (String × Json)) : Json

/-- Whitespace recognised while scanning JSON. -/
def isJsonWs (c : Char) : Bool :=
  c = ' ' || c = '\n' || c = '\t' || c = '\r'

/-- Drop leading JSON whitespace. -/
def skipWs : List Char → List Char
  | [] => []
  | c :: cs => if isJsonWs c then skipWs cs else c :: cs

/-- Scan the body of a JSON string literal (the opening quote already
consumed), handling the single-character escapes. -/
def scanStringChars : Nat → List Char → Except String (String × List Char)
  | 0, _ => .error "Unexpected end of JSON input"
  | _ + 1, [] => .error "Unexpected end of JSON input"
  | fuel + 1, c :: cs =>
    if c = '"' then .ok ("", cs)
    else if c = '\\' then
      match cs with
      | [] => .error "Unexpected end of JSON input"
      | e :: cs2 =>
        let esc : Option Char :=
          if e = '"' then some '"'
          else if e = '\\' then some '\\'
          else if e = '/' then some '/'
          else if e = 'n' then some '\n'
          else if e = 't' then some '\t'
          else if e = 'r' then some '\r'
          else none
        match esc with
        | none => .error "Unsupported escape in JSON string"
        | some ch =>
          match scanStringChars fuel cs2 with
          | .ok (s, rest) => .ok (String.mk (ch :: s.data), rest)
          | .error msg => .error msg
    else
      match scanStringChars fuel cs with
      | .ok (s, rest) => .ok (String.mk (c :: s.data), rest)
      | .error msg => .error msg

/-- Scan a run of decimal digits, accumulating their value. -/
def scanDigits : Nat → List Char → Nat → (Nat × List Char)
  | 0, cs, acc => (acc, cs)
  | _ + 1, [], acc => (acc, [])
  | fuel + 1, c :: cs, acc =>
    if c.isDigit then scanDigits fuel cs (acc * 10 + (c.toNat - 48))
    else (acc, c :: cs)

mutual

/-- Recursive-descent scan of one JSON value.  `fuel` bounds the nesting
depth; `Json.parse` supplies more fuel than any input can consume. -/
def scanVal : Nat → List Char → Except String (Json × List Char)
  | 0, _ => .error "JSON value too deeply nested"
  | fuel + 1, cs =>
    match skipWs cs with
    | [] => .error "Unexpected end of JSON input"
    | c :: rest =>
      if c = '"' then
        match scanStringChars (rest.length + 1) rest with
        | .ok (s, r2) => .ok (.str s, r2)
        | .error msg => .error msg
      else if c = '\x7b' then
        match skipWs rest with
        | '\x7d' :: r2 => .ok (.obj [], r2)
        | r2 =>
          match scanMembers fuel r2 with
          | .ok (fs, r3) => .ok (.obj fs, r3)
          | .error msg => .error msg
      else if c = '[' then
        match skipWs rest with
        | ']' :: r2 => .ok (.arr [], r2)
        | r2 =>
          match scanElements fuel r2 with
          | .ok (xs, r3) => .ok (.arr xs, r3)
          | .error msg => .error msg
      else if c = 't' then
        match rest with
        | 'r' :: 'u' :: 'e' :: r2 => .ok (.bool true, r2)
        | _ => .error "Unexpected token in JSON"
      else if c = 'f' then
        match rest with
        | 'a' :: 'l' :: 's' :: 'e' :: r2 => .ok (.bool false, r2)
        | _ => .error "Unexpected token in JSON"
      else if c = 'n' then
        match rest with
        | 'u' :: 'l' :: 'l' :: r2 => .ok (.null, r2)
        | _ => .error "Unexpected token in JSON"
      else if c = '-' then
        match rest with
        | d :: r2 =>
          if d.isDigit then
            let p := scanDigits (r2.length + 1) r2 (d.toNat - 48)
            .ok (.num (-(Int.ofNat p.1)), p.2)
          else .error "Unexpected token in JSON"
        | [] => .error "Unexpected token in JSON"
      else if c.isDigit then
        let p := scanDigits (rest.length + 1) rest (c.toNat - 48)
        .ok (.num (Int.ofNat p.1), p.2)
      else .error "Unexpected token in JSON"

/-- Scan the members of a non-empty JSON object, cursor just past the
opening brace (and past any separator comma). -/
def scanMembers : Nat → List Char → Except String (List (String × Json) × List Char)
  | 0, _ => .error "JSON value too deeply nested"
  | fuel + 1, cs =>
    match skipWs cs with
    | '"' :: rest =>
      match scanStringChars (rest.length + 1) rest with
      | .error msg => .error msg
      | .ok (key, r2) =>
        match skipWs r2 with
        | ':' :: r3 =>
          match scanVal fuel r3 with
          | .error msg => .error msg
          | .ok (v, r4) =>
            match skipWs r4 with
            | ',' :: r5 =>
              match scanMembers fuel r5 with
              | .error msg => .error msg
              | .ok (fs, r6) => .ok ((key, v) :: fs, r6)
            | '\x7d' :: r5 => .ok ([(key, v)], r5)
            | _ => .error "Expected comma or closing brace in JSON object"
        | _ => .error "Expected colon in JSON object"
    | _ => .error "Expected string key in JSON object"

/-- Scan the elements of a non-empty JSON array, cursor just past the
opening bracket (and past any separator comma). -/
def scanElements : Nat → List Char → Except String (List Json × List Char)
  | 0, _ => .error "JSON value too deeply nested"
  | fuel + 1, cs =>
    match scanVal fuel cs with
    | .error msg => .error msg
    | .ok (v, r2) =>
      match skipWs r2 with
      | ',' :: r3 =>
        match scanElements fuel r3 with
        | .error msg => .error msg
        | .ok (xs, r4) => .ok (v :: xs, r4)
      | ']' :: r3 => .ok ([v], r3)
      | _ => .error "Expected comma or closing bracket in JSON array"

end

/-- Model of the JS `JSON.parse` builtin: scan one value and require only
whitespace after it.  A `SyntaxError` thrown by the builtin is the
`Except.error` case. -/
def Json.parse (s : String) : Except String Json :=
  match scanVal (s.length + 1) s.data with
  | .error msg => .error msg
  | .ok (v, rest) =>
    match skipWs rest with
    | [] => .ok v
    | _ => .error "Unexpected non-whitespace character after JSON data"

/-!
## The dispatcher (src/unnamed/part_000, `app.post("/tool/:toolName")`)

A Vapi webhook body is `{ message: { toolCallList: [...] } }`; a tool call
is `{ id, function: { name, arguments } }`.  The JS code accesses
`call.function.arguments` without guarding, so the `function` field is
modelled by `FunctionVal`, covering every JSON-derived shape it can take:
absent (`undefined`) and `null` make the access throw the runtime
`TypeError`, while a primitive auto-boxes and yields `undefined`.  A
handler is modelled as a function from the value it is invoked with
(`none` being JS `undefined`) to `Except`: `Except.error msg` is a thrown
exception with message `msg`, which the dispatcher's `catch` block
observes.  The registry lookup `tools[toolName]` traverses the JS
prototype chain, so inherited `Object.prototype` properties are truthy
hits even though no tool is registered under those names.
-/

/-- The `function` field of a Vapi tool call: `{ name, arguments }`. -/
structure ToolFunction where
  name : String
  arguments : Json

/-- The runtime value of a tool call's `function` field: the incoming
JSON may omit the field (JS `undefined`), carry an explicit `null`, carry
a primitive (number, string or boolean), or carry the expected
`{ name, arguments }` object.  Property access throws only on the first
two; on a primitive it auto-boxes and yields `undefined`. -/
inductive FunctionVal where
  | undef : FunctionVal
  | nullv : FunctionVal
  | prim (v : Json) : FunctionVal
  | obj (f : ToolFunction) : FunctionVal

/-- One entry of `message.toolCallList`. -/
structure ToolCall where
  id : String
  function : FunctionVal

/-- One entry of the `results` array the dispatcher returns. -/
structure ToolResult where
  toolCallId : String
  result : String

/-- The envelope a handler returns: `{ result }`. -/
structure HandlerResult where
  result : String

/-- A tool handler as the dispatcher sees it: the value it is invoked
with in (`none` is JS `undefined`), either a returned envelope or a
thrown exception out. -/
def Handler : Type := Option Json → Except String HandlerResult

/-- The `message` part of the webhook body. -/
structure VapiMessage where
  toolCallList : Option (List ToolCall)

/-- The webhook request body. -/
structure RequestBody where
  message : Option VapiMessage

/-- The JSON body of the dispatcher's HTTP response: either
`{ results: [...] }` or `{ error: msg }`. -/
inductive ResponseBody where
  | results (rs : List ToolResult) : ResponseBody
  | jsonError (msg : String) : ResponseBody

/-- An HTTP response: status code plus JSON body. -/
structure Response where
  status : Nat
  body : ResponseBody

/-- `typeof call.function.arguments === "string" ? JSON.parse(...) :
call.function.arguments` — parse string-typed arguments, pass any other
value through. -/
def decodeArguments : Json → Except String Json
  | .str s => Json.parse s
  | j => .ok j

/-- Message of the TypeError thrown by `call.function.arguments` when
`call.function` is `undefined`. -/
def missingFunctionError : String :=
  "Cannot read properties of undefined (reading arguments)"

/-- Message of the TypeError thrown by `call.function.arguments` when
`call.function` is `null`. -/
def nullFunctionError : String :=
  "Cannot read properties of null (reading arguments)"

/-- One iteration of the dispatcher's `for` loop on a single call: decode
the arguments, invoke the handler, build the result entry.  The `Nat`
counts handler invocations (0 when the loop throws before reaching the
handler). -/
def stepCall (h : Handler) (call : ToolCall) : Except String ToolResult × Nat :=
  match call.function with
  | .undef => (.error missingFunctionError, 0)
  | .nullv => (.error nullFunctionError, 0)
  | .prim _ =>
    match h none with
    | .error e => (.error e, 1)
    | .ok r => (.ok { toolCallId := call.id, result := r.result }, 1)
  | .obj f =>
    match decodeArguments f.arguments with
    | .error e => (.error e, 0)
    | .ok params =>
      match h (some params) with
      | .error e => (.error e, 1)
      | .ok r => (.ok { toolCallId := call.id, result := r.result }, 1)

/-- The dispatcher's `for` loop: process calls in order, pushing one
result per call; the first thrown error aborts the loop, discarding the
results accumulated so far.  The `Nat` counts handler invocations. -/
def runCalls (h : Handler) : List ToolCall → Except String (List ToolResult) × Nat
  | [] => (.ok [], 0)
  | c :: rest =>
    match stepCall h c with
    | (.error e, n) => (.error e, n)
    | (.ok r, n) =>
      match runCalls h rest with
      | (.error e, m) => (.error e, n + m)
      | (.ok rs, m) => (.ok (r :: rs), n + m)

/-- `req.body.message?.toolCallList || []`. -/
def toolCallsOf (body : RequestBody) : List ToolCall :=
  match body.message with
  | none => []
  | some m => m.toolCallList.getD []

/-- Property names every plain object literal inherits from
`Object.prototype` in Node: `tools[name]` yields a truthy value (a
function, or for `__proto__` an object) at each of these even though no
tool is registered under the name. -/
def objectPrototypeProps : List String :=
  ["constructor", "hasOwnProperty", "isPrototypeOf", "propertyIsEnumerable",
   "toLocaleString", "toString", "valueOf", "__proto__",
   "__defineGetter__", "__defineSetter__", "__lookupGetter__", "__lookupSetter__"]

/-- The lookup `tools[toolName]` on the object literal
`tools = { log_health_status: ..., schedule_followup: ... }`, abstracted
over the two handler functions: own keys first, then the JS prototype
chain.  An inherited `Object.prototype` hit is truthy, so the source's
`if (!handler)` guard does not fire for it; what invoking that inherited
value then does is abstracted by `protoVal`, universally quantified in
every theorem that touches it. -/
def toolsRegistry (logHealth scheduleFollowup : Handler)
    (protoVal : String → Handler) : String → Option Handler :=
  fun name =>
    if name = "log_health_status" then some logHealth
    else if name = "schedule_followup" then some scheduleFollowup
    else if objectPrototypeProps.contains name then some (protoVal name)
    else none

/-- The whole `POST /tool/:toolName` route, for an arbitrary registry:
404 on unknown tool, otherwise run the loop; a thrown error becomes a 500
with `{ error: message }`, success a 200 with `{ results }`.  The `Nat`
component counts handler invocations performed while serving the
request. -/
def handleToolPost (registry : String → Option Handler) (toolName : String)
    (body : RequestBody) : Response × Nat :=
  match registry toolName with
  | none => ({ status := 404, body := .jsonError ("Unknown tool: " ++ toolName) }, 0)
  | some h =>
    match runCalls h (toolCallsOf body) with
    | (.ok rs, n) => ({ status := 200, body := .results rs }, n)
    | (.error e, n) => ({ status := 500, body := .jsonError e }, n)

/-!
## Substring containment

`strContainsSub s sub` states that `sub` occurs contiguously inside `s`,
phrased over the character lists so that list `simp` lemmas apply.
-/

/-- `sub` occurs contiguously inside `s`. -/
def strContainsSub (s sub : String) : Prop :=
  ∃ a b : List Char, s.data = a ++ (sub.data ++ b)

/-!
## log_health_status handler (src/unnamed/part_002)

The handler builds a record stamped with the current time, logs it, and
returns the confirmation envelope.  Neither the timestamp nor the console
log influences the returned value, so the embedding takes the parameters
at the tool's declared schema type and returns the envelope; the handler
is a total function, i.e. it never throws on schema-typed input.
-/

/-- Parameters of `log_health_status` at the tool's declared schema:
`patientName`, `patientPhone`, `symptoms` (array of strings), `mood`,
optional `notes`. -/
structure LogHealthParams where
  patientName : String
  patientPhone : String
  symptoms : List String
  mood : String
  notes : Option String

/-- The `log_health_status` handler's returned envelope:
`Health status logged for ${patientName}. Symptoms:
${symptoms.join(", ")}. Mood: ${mood}.` -/
def logHealthStatusHandler (params : LogHealthParams) : HandlerResult :=
  { result :=
      "Health status logged for " ++ params.patientName ++ ". Symptoms: " ++
        String.intercalate ", " params.symptoms ++ ". Mood: " ++ params.mood ++ "." }

/-!
## schedule_followup handler (src/tools/schedule_followup.js)

The handler issues exactly one `POST https://api.vapi.ai/call` and builds
its result from the response.  The request body is embedded as
`followupCallRequest`; the remote platform's reply is an oracle argument
(`response.ok` plus the decoded `data` fields the code reads).  The
handler returns the list of requests it submitted alongside its result
envelope; it never throws once the response JSON is decoded.
-/

/-- Parameters of `schedule_followup` at the tool's declared schema. -/
structure FollowupParams where
  patientName : String
  patientPhone : String
  followUpDate : String
  reason : String

/-- The inlined assistant's system prompt: the six message lines joined
with a single space, interpolating `patientName` and `reason`. -/
def followupSystemPrompt (p : FollowupParams) : String :=
  "You are a friendly health follow-up agent calling " ++ p.patientName ++ ". " ++
  "Reason for this call: " ++ p.reason ++ ". " ++
  "Ask how they are feeling since your last check-in. " ++
  "Log their updated health status using the log_health_status tool. " ++
  "If symptoms have worsened, recommend they contact their doctor. " ++
  "Keep responses under 30 words."

/-- The freshly defined assistant inlined into the call request. -/
structure AssistantSpec where
  name : String
  systemPrompt : String
  firstMessage : String

/-- `schedulePlan` of the call request. -/
structure SchedulePlan where
  earliestAt : String

/-- `customer` of the call request (`none` models a JS `undefined`
field). -/
structure CustomerSpec where
  number : Option String
  name : Option String

/-- Body of the `POST /call` request built by the webhook-variant
handler. -/
structure CallRequest where
  assistant : Option AssistantSpec
  assistantId : Option String
  phoneNumberId : Option String
  customer : CustomerSpec
  schedulePlan : SchedulePlan

/-- The call request `schedule_followup` submits: an inlined
`HealthFollowUp` assistant (not a reference to a pre-existing one), the
patient as customer, and `schedulePlan.earliestAt = followUpDate`. -/
def followupCallRequest (phoneNumberId : Option String) (p : FollowupParams) : CallRequest :=
  { assistant := some
      { name := "HealthFollowUp"
        systemPrompt := followupSystemPrompt p
        firstMessage := "Hi " ++ p.patientName ++
          ", this is your health check-in calling about: " ++ p.reason ++
          ". How have you been feeling?" }
    assistantId := none
    phoneNumberId := phoneNumberId
    customer := { number := some p.patientPhone, name := some p.patientName }
    schedulePlan := { earliestAt := p.followUpDate } }

/-- The fields of the decoded `/call` response body that the handler
reads (`data.message`, `data.id`); `none` models an absent field. -/
structure VapiCallData where
  message : Option String
  id : Option String

/-- The oracle for one `fetch` of `POST /call`: HTTP success flag
(`response.ok`) and decoded body. -/
structure VapiCallResponse where
  ok : Bool
  data : VapiCallData

/-- JS template-string interpolation of a possibly-undefined value. -/
def jsToString : Option String → String
  | some s => s
  | none => "undefined"

/-- JS `x || d` for a possibly-undefined string `x`: the default wins on
`undefined` and on the empty string (both falsy). -/
def jsOrElse (x : Option String) (d : String) : String :=
  match x with
  | some s => if s = "" then d else s
  | none => d

/-- The `schedule_followup` handler: always submits exactly the one call
request, then returns a failure-description envelope on `!response.ok`
(`Failed to schedule follow-up: ${data.message || "unknown error"}`) and
otherwise the confirmation envelope quoting `data.id`. -/
def scheduleFollowupHandler (phoneNumberId : Option String) (p : FollowupParams)
    (resp : VapiCallResponse) : List CallRequest × HandlerResult :=
  ([followupCallRequest phoneNumberId p],
    if resp.ok then
      { result := "Follow-up call scheduled for " ++ p.patientName ++ " on " ++
          p.followUpDate ++ ". Call ID: " ++ jsToString resp.data.id ++ "." }
    else
      { result := "Failed to schedule follow-up: " ++
          jsOrElse resp.data.message "unknown error" })

/-!
## Deployed code-tool variants (src/deploy.js)

`deploy.js` provisions two Vapi "code" tools whose bodies are inlined
strings.  `LOG_HEALTH_STATUS_CODE` authenticates against Google via a
token exchange and appends one row to a spreadsheet; both failure paths
`return` a structured object instead of throwing.  `SCHEDULE_FOLLOWUP_CODE`
reads its configuration from the tool's declared environment variables and
submits one scheduled call.  Token exchange, sheet append past states and
the `/call` response are oracle arguments.
-/

/-- The decoded body of the Google token exchange response; the code only
inspects `tokenResponse.error` and `tokenResponse.access_token`. -/
structure TokenResponse where
  error : Option String
  access_token : Option String

/-- The decoded body of the Sheets append response; the code inspects
`result.error` and `result.updates?.updatedCells`. -/
structure SheetsAppendResult where
  error : Option String
  updatedCells : Option Nat

/-- The arguments destructured by `LOG_HEALTH_STATUS_CODE`; each is
`undefined` when absent. -/
structure LogCodeArgs where
  overall_status : Option String
  symptoms_reported : Option String
  notes : Option String
  followup_scheduled : Option String

/-- The object values `LOG_HEALTH_STATUS_CODE` can `return`. -/
inductive LogCodeResult where
  | failure (error : String) (details : String) : LogCodeResult
  | success (message : String) (updatedCells : Option Nat) : LogCodeResult

/-- `LOG_HEALTH_STATUS_CODE`: exchange the signed assertion for a token;
on `tokenResponse.error` return the auth-failure object without touching
the sheet; otherwise append the five-field row and return either the
append-failure object or the success object.  The first component lists
the rows appended to the sheet. -/
def logHealthStatusCode (args : LogCodeArgs) (timestamp : String)
    (tok : TokenResponse) (app : SheetsAppendResult) :
    List (List String) × LogCodeResult :=
  match tok.error with
  | some e => ([], .failure "Failed to authenticate with Google" e)
  | none =>
    let values := [timestamp, args.overall_status.getD "",
      args.symptoms_reported.getD "", args.notes.getD "",
      args.followup_scheduled.getD ""]
    match app.error with
    | some e => ([values], .failure "Failed to append to sheet" e)
    | none => ([values], .success "Health status logged successfully" app.updatedCells)

/-- JSON rendering of a `LogCodeResult`, as the platform serialises the
returned object into the conversation-facing tool result string. -/
def logCodeResultString : LogCodeResult → String
  | .failure err details =>
      "\x7b\"error\":\"" ++ err ++ "\",\"details\":\"" ++ details ++ "\"\x7d"
  | .success msg cells =>
      "\x7b\"success\":true,\"message\":\"" ++ msg ++ "\"" ++
        (match cells with
          | some n => ",\"updatedCells\":" ++ toString n
          | none => "") ++ "\x7d"

/-- The deployed `log_health_status` code tool wrapped as a dispatcher
handler: it absorbs Google failures into its returned value and therefore
never throws (always `Except.ok`). -/
def deployedLogHandler (timestamp : String) (tok : TokenResponse)
    (app : SheetsAppendResult) (args : LogCodeArgs) : Handler :=
  fun _ => .ok { result := logCodeResultString (logHealthStatusCode args timestamp tok app).2 }

/-- Environment-variable lookup (`env.NAME`); `none` is `undefined`. -/
def envLookup (env : List (String × String)) (k : String) : Option String :=
  (env.find? (fun kv => kv.1 == k)).map (fun kv => kv.2)

/-- The environment variables `deploy.js` declares on the
`schedule_followup` code tool: note the last entry is named `PHONE`, with
a malformed template literal as value. -/
def scheduleFollowupToolEnv (vapiApiKey assistantId phoneNumberId : String) :
    List (String × String) :=
  [("VAPI_API_KEY", vapiApiKey),
   ("ASSISTANT_ID", assistantId),
   ("PHONE_NUMBER_ID", phoneNumberId),
   ("PHONE", "call.customer.number\x7d\x7d")]

/-- JS `x || undefined` (an empty string collapses to `undefined`). -/
def jsOrUndefined : Option String → Option String
  | some s => if s = "" then none else some s
  | x => x

/-- The body of the `/call` request built by `SCHEDULE_FOLLOWUP_CODE`:
`assistantId`/`phoneNumberId`/`customer.number` come from the tool's
environment, `customer.name` is `customer_name || undefined`, and the
scheduled time is `Date.now() + minutes_from_now * 60 * 1000`
(milliseconds, rendered to ISO upstream). -/
structure DeployedCallRequest where
  assistantId : Option String
  phoneNumberId : Option String
  customerNumber : Option String
  customerName : Option String
  earliestAtMs : Int

/-- The request `SCHEDULE_FOLLOWUP_CODE` submits, given the tool's
environment, the arguments, and the current time in milliseconds.  The
customer number is read from `env.CUSTOMER_PHONE`. -/
def scheduleFollowupCodeRequest (env : List (String × String))
    (customer_name : Option String) (minutes_from_now : Int) (nowMs : Int) :
    DeployedCallRequest :=
  { assistantId := envLookup env "ASSISTANT_ID"
    phoneNumberId := envLookup env "PHONE_NUMBER_ID"
    customerNumber := envLookup env "CUSTOMER_PHONE"
    customerName := jsOrUndefined customer_name
    earliestAtMs := nowMs + minutes_from_now * 60 * 1000 }

/-!
## Concrete inputs used by witnesses
-/

/-- A handler that always returns an envelope (never throws). -/
def wOkHandler : Handler := fun _ => .ok { result := "done" }

/-- A well-formed call with already-decoded arguments. -/
def wCallDecoded : ToolCall :=
  { id := "call-a",
    function := .obj { name := "log_health_status",
                       arguments := .obj [("patientName", .str "Ann")] } }

/-- A well-formed call whose arguments arrive as a JSON-encoded string. -/
def wCallEncoded : ToolCall :=
  { id := "call-b",
    function := .obj { name := "log_health_status",
                       arguments := .str "\x7b\"mood\":\"good\"\x7d" } }

/-- The call `wCallEncoded` with its arguments already decoded. -/
def wCallEncodedAsObj : ToolCall :=
  { id := "call-b",
    function := .obj { name := "log_health_status",
                       arguments := .obj [("mood", .str "good")] } }

/-- A call whose string arguments are not valid JSON, so the decode
throws. -/
def wCallBadJson : ToolCall :=
  { id := "call-c",
    function := .obj { name := "log_health_status", arguments := .str "oops" } }

/-- A call missing its `function` field entirely. -/
def wCallNoFunction : ToolCall := { id := "call-d", function := .undef }

/-- A call whose `function` field is present but a primitive number, so
the property access auto-boxes and yields `undefined` without
throwing. -/
def wCallPrimFunction : ToolCall := { id := "call-e", function := .prim (.num 42) }

/-- A behaviour for inherited `Object.prototype` lookup hits, used to
instantiate `protoVal` in witnesses and counterexamples. -/
def wProtoVal : String → Handler := fun _ => wOkHandler

/-- A body with an empty `toolCallList`. -/
def wEmptyBody : RequestBody := { message := some { toolCallList := some [] } }

/-- A singleton batch whose call's `function` field is a primitive. -/
def wPrimFunctionBody : RequestBody :=
  { message := some { toolCallList := some [wCallPrimFunction] } }

/-- A two-call batch body in which every call decodes and succeeds. -/
def wGoodBody : RequestBody :=
  { message := some { toolCallList := some [wCallDecoded, wCallEncoded] } }

/-- A batch body whose second call's argument decode throws. -/
def wBadJsonBody : RequestBody :=
  { message := some { toolCallList := some [wCallDecoded, wCallBadJson] } }

/-- A batch body whose second call has no `function` field. -/
def wNoFunctionBody : RequestBody :=
  { message := some { toolCallList := some [wCallDecoded, wCallNoFunction] } }

/-!
## Concrete inputs for the deployed-variant witnesses
-/

/-- Concrete inputs for the C6 witness: a failed token exchange. -/
def wTokFail : TokenResponse := { error := some "invalid_grant", access_token := none }

/-- Concrete append oracle (unused on the auth-failure path). -/
def wAppOk : SheetsAppendResult := { error := none, updatedCells := some 5 }

/-- Concrete arguments for the C6 witness. -/
def wLogArgs : LogCodeArgs :=
  { overall_status := some "poor", symptoms_reported := some "cough",
    notes := some "call back", followup_scheduled := some "yes" }

/-!
## Sanity checks of the JSON scan
-/

example : Json.parse "\x7b\"a\":\"b\"\x7d" = .ok (.obj [("a", .str "b")]) := rfl
example : Json.parse "\x7b\"a\": [1, -2], \"b\": true\x7d" =
    .ok (.obj [("a", .arr [.num 1, .num (-2)]), ("b", .bool true)]) := rfl
example : Json.parse "\x7b" = .error "Expected string key in JSON object" := rfl


/-!
## String lemmas
-/

/-- `(x ++ y).data = x.data ++ y.data`. -/
theorem dataAppend (x y : String) : (x ++ y).data = x.data ++ y.data := by
  rcases x with ⟨dx⟩
  rcases y with ⟨dy⟩
  rfl

/-- The character list of the empty string. -/
theorem dataEmpty : ("" : String).data = [] := rfl

/-- String append is associative. -/
theorem strAppendAssoc (a b c : String) : a ++ b ++ c = a ++ (b ++ c) := by
  rcases a with ⟨da⟩
  rcases b with ⟨db⟩
  rcases c with ⟨dc⟩
  exact congrArg String.mk (List.append_assoc da db dc)

/-- Every string occurs in itself. -/
theorem containsSub_refl (s : String) : strContainsSub s s :=
  ⟨[], [], by simp⟩

/-- Containment survives prepending. -/
theorem containsSub_append_left (x : String) {s sub : String}
    (h : strContainsSub s sub) : strContainsSub (x ++ s) sub := by
  obtain ⟨a, b, hab⟩ := h
  exact ⟨x.data ++ a, b, by simp [dataAppend, hab]⟩

/-- Containment survives appending. -/
theorem containsSub_append_right {s sub : String} (x : String)
    (h : strContainsSub s sub) : strContainsSub (s ++ x) sub := by
  obtain ⟨a, b, hab⟩ := h
  exact ⟨a, b ++ x.data, by simp [dataAppend, hab]⟩

/-!
## Lemmas about the dispatch loop
-/

/-- A successful loop iteration tags its result with the call's own id. -/
theorem stepCall_ok_id (h : Handler) (c : ToolCall) (r : ToolResult) (n : Nat)
    (hc : stepCall h c = (.ok r, n)) : r.toolCallId = c.id := by
  cases hf : c.function with
  | undef => simp [stepCall, hf] at hc
  | nullv => simp [stepCall, hf] at hc
  | prim v =>
    cases hh : h none with
    | error e => simp [stepCall, hf, hh] at hc
    | ok hr =>
      simp [stepCall, hf, hh] at hc
      rw [← hc.1]
  | obj f =>
    cases hd : decodeArguments f.arguments with
    | error e => simp [stepCall, hf, hd] at hc
    | ok params =>
      cases hh : h (some params) with
      | error e => simp [stepCall, hf, hd, hh] at hc
      | ok hr =>
        simp [stepCall, hf, hd, hh] at hc
        rw [← hc.1]

/-- When every iteration succeeds, the loop returns one result per call,
ids in input order. -/
theorem runCalls_ok_of_forall (h : Handler) (calls : List ToolCall)
    (hall : ∀ c ∈ calls, ∃ r n, stepCall h c = (.ok r, n)) :
    ∃ rs m, runCalls h calls = (.ok rs, m) ∧
      rs.map ToolResult.toolCallId = calls.map ToolCall.id := by
  induction calls with
  | nil => exact ⟨[], 0, rfl, rfl⟩
  | cons c cs ih =>
    obtain ⟨r, n, hc⟩ := hall c (List.mem_cons_self c cs)
    obtain ⟨rs, m, hrun, hmap⟩ := ih (fun c' hc' => hall c' (List.mem_cons_of_mem c hc'))
    refine ⟨r :: rs, n + m, ?_, ?_⟩
    · simp [runCalls, hc, hrun]
    · simp [hmap, stepCall_ok_id h c r n hc]

/-- When the iterations before `bad` succeed and `bad`'s iteration
throws, the loop aborts with exactly that error, whatever follows. -/
theorem runCalls_error_first (h : Handler) (pre : List ToolCall) (bad : ToolCall)
    (post : List ToolCall) (e : String) (n : Nat)
    (hpre : ∀ c ∈ pre, ∃ r k, stepCall h c = (.ok r, k))
    (hbad : stepCall h bad = (.error e, n)) :
    ∃ m, runCalls h (pre ++ bad :: post) = (.error e, m) := by
  induction pre with
  | nil =>
    refine ⟨n, ?_⟩
    simp [runCalls, hbad]
  | cons c cs ih =>
    obtain ⟨r, k, hc⟩ := hpre c (List.mem_cons_self c cs)
    obtain ⟨m, hm⟩ := ih (fun c' hc' => hpre c' (List.mem_cons_of_mem c hc'))
    refine ⟨k + m, ?_⟩
    simp [runCalls, hc, hm]

/-!
## Claims about the dispatcher
-/

/-- C1: for every batch of N tool calls posted to `/tool/{toolName}` with
a registered tool name, when every argument decode and handler invocation
completes without throwing, the response has status 200 and contains
exactly N result entries whose `toolCallId` values equal the input calls'
ids in the same order. -/
theorem dispatcher_success_batch (registry : String → Option Handler) (toolName : String)
    (h : Handler) (hreg : registry toolName = some h) (body : RequestBody)
    (hall : ∀ c ∈ toolCallsOf body, ∃ r n, stepCall h c = (.ok r, n)) :
    ∃ rs, (handleToolPost registry toolName body).1 =
        { status := 200, body := .results rs } ∧
      rs.length = (toolCallsOf body).length ∧
      rs.map ToolResult.toolCallId = (toolCallsOf body).map ToolCall.id := by
  obtain ⟨rs, m, hrun, hmap⟩ := runCalls_ok_of_forall h (toolCallsOf body) hall
  refine ⟨rs, ?_, ?_, hmap⟩
  · simp [handleToolPost, hreg, hrun]
  · simpa using congrArg List.length hmap

theorem dispatcher_success_batch_witness :
    ∃ rs, (handleToolPost (toolsRegistry wOkHandler wOkHandler wProtoVal)
        "log_health_status"
        wGoodBody).1 = { status := 200, body := .results rs } ∧
      rs.length = (toolCallsOf wGoodBody).length ∧
      rs.map ToolResult.toolCallId = (toolCallsOf wGoodBody).map ToolCall.id :=
  dispatcher_success_batch (toolsRegistry wOkHandler wOkHandler wProtoVal)
    "log_health_status"
    wOkHandler rfl wGoodBody (by
      intro c hc
      simp [wGoodBody, toolCallsOf] at hc
      rcases hc with hc | hc <;> subst hc <;> exact ⟨_, _, rfl⟩)

/-- C2: for every batch in which some call's argument decode or handler
invocation throws (all earlier calls succeeding), the dispatcher aborts,
responds with status 500 and `{ error: message }`, and the results already
computed for the earlier calls do not appear in the response. -/
theorem dispatcher_aborts_batch_on_throw (registry : String → Option Handler)
    (toolName : String) (h : Handler) (hreg : registry toolName = some h)
    (body : RequestBody) (pre : List ToolCall) (bad : ToolCall) (post : List ToolCall)
    (e : String) (n : Nat)
    (hcalls : toolCallsOf body = pre ++ bad :: post)
    (hpre : ∀ c ∈ pre, ∃ r k, stepCall h c = (.ok r, k))
    (hbad : stepCall h bad = (.error e, n)) :
    (handleToolPost registry toolName body).1 =
      { status := 500, body := .jsonError e } ∧
    ∀ rs, (handleToolPost registry toolName body).1.body ≠ .results rs := by
  obtain ⟨m, hm⟩ := runCalls_error_first h pre bad post e n hpre hbad
  constructor
  · simp [handleToolPost, hreg, hcalls, hm]
  · intro rs hrs
    simp [handleToolPost, hreg, hcalls, hm] at hrs

theorem dispatcher_aborts_batch_on_throw_witness :
    (handleToolPost (toolsRegistry wOkHandler wOkHandler wProtoVal)
        "log_health_status" wBadJsonBody).1 =
      { status := 500, body := .jsonError "Unexpected token in JSON" } ∧
    ∀ rs, (handleToolPost (toolsRegistry wOkHandler wOkHandler wProtoVal)
        "log_health_status" wBadJsonBody).1.body ≠ .results rs :=
  dispatcher_aborts_batch_on_throw (toolsRegistry wOkHandler wOkHandler wProtoVal)
    "log_health_status" wOkHandler rfl wBadJsonBody [wCallDecoded] wCallBadJson []
    "Unexpected token in JSON" 0 rfl
    (by intro c hc; simp at hc; subst hc; exact ⟨_, _, rfl⟩) rfl

/-- C3 (corrected): the frozen claim fails on the code because the JS
lookup `tools[toolName]` traverses the prototype chain, so a name such as
`toString` — not a registered key — yields a truthy inherited value and
the 404 branch is skipped.  Amended claim: for every
`POST /tool/{toolName}` where `toolName` is neither a registered key of
the tool registry nor an inherited `Object.prototype` property (so
`tools[toolName]` is falsy), the response has status 404 with body
`{ error: "Unknown tool: <name>" }` and no handler is invoked (the
invocation count is 0), regardless of the request body. -/
theorem unknown_tool_404_no_handler (logHealth scheduleFollowup : Handler)
    (protoVal : String → Handler)
    (toolName : String) (hn1 : toolName ≠ "log_health_status")
    (hn2 : toolName ≠ "schedule_followup")
    (hn3 : toolName ∉ objectPrototypeProps) (body : RequestBody) :
    handleToolPost (toolsRegistry logHealth scheduleFollowup protoVal) toolName body =
      ({ status := 404, body := .jsonError ("Unknown tool: " ++ toolName) }, 0) := by
  simp [handleToolPost, toolsRegistry, hn1, hn2, hn3]

theorem unknown_tool_404_no_handler_witness :
    handleToolPost (toolsRegistry wOkHandler wOkHandler wProtoVal) "send_alert"
        wGoodBody =
      ({ status := 404, body := .jsonError ("Unknown tool: " ++ "send_alert") }, 0) :=
  unknown_tool_404_no_handler wOkHandler wOkHandler wProtoVal "send_alert"
    (by decide) (by decide) (by decide) wGoodBody

/-- C3 counterexample: `toString` is not a registered key of the tool
registry, yet `POST /tool/toString` with an empty batch is answered 200
`{ results: [] }` — not 404 — because the lookup hits the inherited
`Object.prototype.toString` and the truthiness guard passes.  (The
response is independent of the abstracted inherited behaviour, since the
empty loop never invokes it.) -/
theorem unknown_tool_prototype_hit_not_404 :
    "toString" ≠ "log_health_status" ∧ "toString" ≠ "schedule_followup" ∧
    (handleToolPost (toolsRegistry wOkHandler wOkHandler wProtoVal) "toString"
        wEmptyBody).1 = { status := 200, body := .results [] } :=
  ⟨by decide, by decide, rfl⟩

/-- C4: a call whose `arguments` field is a JSON-encoded string and a
call whose `arguments` field is the mapping obtained by decoding that
string hand the handler identical parameter values and produce identical
loop-iteration outcomes for the same handler behaviour. -/
theorem string_and_decoded_arguments_equivalent (h : Handler) (idStr fname s : String)
    (fields : List (String × Json)) (hp : Json.parse s = .ok (.obj fields)) :
    decodeArguments (.str s) = decodeArguments (.obj fields) ∧
    stepCall h { id := idStr, function := .obj { name := fname, arguments := .str s } } =
      stepCall h { id := idStr, function := .obj { name := fname, arguments := .obj fields } } := by
  have hdec : decodeArguments (.str s) = .ok (.obj fields) := by
    simp [decodeArguments, hp]
  exact ⟨hdec, by simp [stepCall, decodeArguments, hp]⟩

theorem string_and_decoded_arguments_equivalent_witness :
    decodeArguments (.str "\x7b\"mood\":\"good\"\x7d") =
      decodeArguments (.obj [("mood", .str "good")]) ∧
    stepCall wOkHandler wCallEncoded = stepCall wOkHandler wCallEncodedAsObj :=
  string_and_decoded_arguments_equivalent wOkHandler "call-b" "log_health_status"
    "\x7b\"mood\":\"good\"\x7d" [("mood", .str "good")] rfl

/-- C9 (corrected): the frozen claim also covered a `function` field that
is present but "not an object"; for a primitive value JS auto-boxes the
property access and yields `undefined` without throwing, so that part
fails on the code.  Amended claim: a batch containing a call whose
`function` field is absent or null makes the unguarded
`call.function.arguments` access throw, so the whole batch (including
well-formed earlier calls) is answered with HTTP 500 rather than a
per-call error. -/
theorem missing_function_field_aborts_batch (registry : String → Option Handler)
    (toolName : String) (h : Handler) (hreg : registry toolName = some h)
    (body : RequestBody) (pre : List ToolCall) (bad : ToolCall) (post : List ToolCall)
    (hcalls : toolCallsOf body = pre ++ bad :: post)
    (hpre : ∀ c ∈ pre, ∃ r k, stepCall h c = (.ok r, k))
    (hbad : bad.function = .undef ∨ bad.function = .nullv) :
    ∃ e, stepCall h bad = (.error e, 0) ∧
      (handleToolPost registry toolName body).1 =
        { status := 500, body := .jsonError e } ∧
      ∀ rs, (handleToolPost registry toolName body).1.body ≠ .results rs := by
  have hstep : ∃ e, stepCall h bad = (.error e, 0) := by
    rcases hbad with hb | hb
    · exact ⟨missingFunctionError, by simp [stepCall, hb]⟩
    · exact ⟨nullFunctionError, by simp [stepCall, hb]⟩
  obtain ⟨e, he⟩ := hstep
  obtain ⟨m, hm⟩ := runCalls_error_first h pre bad post e 0 hpre he
  refine ⟨e, he, ?_, ?_⟩
  · simp [handleToolPost, hreg, hcalls, hm]
  · intro rs hrs
    simp [handleToolPost, hreg, hcalls, hm] at hrs

theorem missing_function_field_aborts_batch_witness :
    ∃ e, stepCall wOkHandler wCallNoFunction = (.error e, 0) ∧
      (handleToolPost (toolsRegistry wOkHandler wOkHandler wProtoVal)
          "log_health_status" wNoFunctionBody).1 =
        { status := 500, body := .jsonError e } ∧
      ∀ rs, (handleToolPost (toolsRegistry wOkHandler wOkHandler wProtoVal)
          "log_health_status" wNoFunctionBody).1.body ≠ .results rs :=
  missing_function_field_aborts_batch (toolsRegistry wOkHandler wOkHandler wProtoVal)
    "log_health_status" wOkHandler rfl wNoFunctionBody [wCallDecoded] wCallNoFunction []
    rfl (by intro c hc; simp at hc; subst hc; exact ⟨_, _, rfl⟩) (Or.inl rfl)

/-- C9 counterexample: for a call whose `function` field is present but a
primitive number, the access does not throw — the loop reaches and
invokes the handler (invocation count 1) — and with a returning handler
the batch is answered 200, not 500. -/
theorem primitive_function_field_no_throw :
    stepCall wOkHandler wCallPrimFunction =
      (.ok { toolCallId := "call-e", result := "done" }, 1) ∧
    (handleToolPost (toolsRegistry wOkHandler wOkHandler wProtoVal)
        "log_health_status" wPrimFunctionBody).1 =
      { status := 200,
        body := .results [{ toolCallId := "call-e", result := "done" }] } :=
  ⟨rfl, rfl⟩

/-!
## Claims about the handlers
-/

/-- C5: for every `log_health_status` input with `symptoms = []` and
`mood = "poor"`, the handler completes (it is a total function on
schema-typed input, so it cannot throw) and its result string contains
the patient name, the symptom-list summary marker, and the substring
`Mood: poor.`. -/
theorem log_health_status_empty_symptoms_poor (p : LogHealthParams)
    (hs : p.symptoms = []) (hm : p.mood = "poor") :
    strContainsSub (logHealthStatusHandler p).result p.patientName ∧
    strContainsSub (logHealthStatusHandler p).result ". Symptoms: " ∧
    strContainsSub (logHealthStatusHandler p).result "Mood: poor." := by
  have hi : String.intercalate ", " ([] : List String) = "" := rfl
  have hres : (logHealthStatusHandler p).result =
      "Health status logged for " ++ p.patientName ++ ". Symptoms: " ++
        ". Mood: " ++ "poor" ++ "." := by
    simp [logHealthStatusHandler, hs, hm, hi]
  rw [hres]
  refine ⟨?_, ?_, ?_⟩
  · exact containsSub_append_right "." (containsSub_append_right "poor"
      (containsSub_append_right ". Mood: "
        (containsSub_append_right ". Symptoms: "
          (containsSub_append_left "Health status logged for "
            (containsSub_refl p.patientName)))))
  · exact containsSub_append_right "." (containsSub_append_right "poor"
      (containsSub_append_right ". Mood: "
        (containsSub_append_left ("Health status logged for " ++ p.patientName)
          (containsSub_refl ". Symptoms: "))))
  · rw [strAppendAssoc _ "poor" ".",
      strAppendAssoc ("Health status logged for " ++ p.patientName ++ ". Symptoms: ")
        ". Mood: " ("poor" ++ ".")]
    exact containsSub_append_left _ ⟨(". " : String).data, [], by decide⟩

theorem log_health_status_empty_symptoms_poor_witness :
    strContainsSub (logHealthStatusHandler
      { patientName := "Ann", patientPhone := "+15550001111",
        symptoms := [], mood := "poor", notes := none }).result "Mood: poor." :=
  (log_health_status_empty_symptoms_poor
    { patientName := "Ann", patientPhone := "+15550001111",
      symptoms := [], mood := "poor", notes := none } rfl rfl).2.2

/-- C7: for every `schedule_followup` invocation, a non-success HTTP
status on the call-creation request yields a failure-description result
(the handler returns rather than throws), and a success yields a
confirmation string that includes the platform-assigned call
identifier. -/
theorem schedule_followup_failure_and_success (phoneNumberId : Option String)
    (p : FollowupParams) (resp : VapiCallResponse) (cid : String) :
    (resp.ok = false →
      (scheduleFollowupHandler phoneNumberId p resp).2.result =
        "Failed to schedule follow-up: " ++ jsOrElse resp.data.message "unknown error") ∧
    (resp.ok = true → resp.data.id = some cid →
      strContainsSub (scheduleFollowupHandler phoneNumberId p resp).2.result cid) := by
  constructor
  · intro hok
    simp [scheduleFollowupHandler, hok]
  · intro hok hid
    have hres : (scheduleFollowupHandler phoneNumberId p resp).2.result =
        "Follow-up call scheduled for " ++ p.patientName ++ " on " ++
          p.followUpDate ++ ". Call ID: " ++ cid ++ "." := by
      simp [scheduleFollowupHandler, hok, hid, jsToString]
    rw [hres]
    exact containsSub_append_right "."
      (containsSub_append_left
        ("Follow-up call scheduled for " ++ p.patientName ++ " on " ++
          p.followUpDate ++ ". Call ID: ")
        (containsSub_refl cid))

theorem schedule_followup_failure_and_success_witness :
    (scheduleFollowupHandler (some "pn-1")
        { patientName := "Ann", patientPhone := "+15550001111",
          followUpDate := "2026-03-15T14:00:00Z", reason := "cough check" }
        { ok := false, data := { message := some "bad key", id := none } }).2.result =
      "Failed to schedule follow-up: " ++ jsOrElse (some "bad key") "unknown error" ∧
    strContainsSub (scheduleFollowupHandler (some "pn-1")
        { patientName := "Ann", patientPhone := "+15550001111",
          followUpDate := "2026-03-15T14:00:00Z", reason := "cough check" }
        { ok := true, data := { message := none, id := some "call-123" } }).2.result
      "call-123" :=
  ⟨(schedule_followup_failure_and_success (some "pn-1")
      { patientName := "Ann", patientPhone := "+15550001111",
        followUpDate := "2026-03-15T14:00:00Z", reason := "cough check" }
      { ok := false, data := { message := some "bad key", id := none } } "x").1 rfl,
   (schedule_followup_failure_and_success (some "pn-1")
      { patientName := "Ann", patientPhone := "+15550001111",
        followUpDate := "2026-03-15T14:00:00Z", reason := "cough check" }
      { ok := true, data := { message := none, id := some "call-123" } } "call-123").2
     rfl rfl⟩

/-- C8: every `schedule_followup` invocation (a past `followUpDate`
included — the parameters are unconstrained) submits exactly one
call-scheduling request, whose `schedulePlan.earliestAt` is the given
`followUpDate` unchanged and whose inlined assistant's system prompt
contains the given `patientName` and `reason`. -/
theorem schedule_followup_request_shape (phoneNumberId : Option String)
    (p : FollowupParams) (resp : VapiCallResponse) :
    (scheduleFollowupHandler phoneNumberId p resp).1 =
      [followupCallRequest phoneNumberId p] ∧
    (followupCallRequest phoneNumberId p).schedulePlan.earliestAt = p.followUpDate ∧
    ∃ a, (followupCallRequest phoneNumberId p).assistant = some a ∧
      strContainsSub a.systemPrompt p.patientName ∧
      strContainsSub a.systemPrompt p.reason := by
  refine ⟨rfl, rfl, _, rfl, ?_, ?_⟩
  · show strContainsSub (followupSystemPrompt p) p.patientName
    unfold followupSystemPrompt
    exact containsSub_append_right "Keep responses under 30 words."
      (containsSub_append_right "If symptoms have worsened, recommend they contact their doctor. "
        (containsSub_append_right "Log their updated health status using the log_health_status tool. "
          (containsSub_append_right "Ask how they are feeling since your last check-in. "
            (containsSub_append_right ". "
              (containsSub_append_right p.reason
                (containsSub_append_right "Reason for this call: "
                  (containsSub_append_right ". "
                    (containsSub_append_left
                      "You are a friendly health follow-up agent calling "
                      (containsSub_refl p.patientName)))))))))
  · show strContainsSub (followupSystemPrompt p) p.reason
    unfold followupSystemPrompt
    exact containsSub_append_right "Keep responses under 30 words."
      (containsSub_append_right "If symptoms have worsened, recommend they contact their doctor. "
        (containsSub_append_right "Log their updated health status using the log_health_status tool. "
          (containsSub_append_right "Ask how they are feeling since your last check-in. "
            (containsSub_append_right ". "
              (containsSub_append_left
                ("You are a friendly health follow-up agent calling " ++ p.patientName ++
                  ". " ++ "Reason for this call: ")
                (containsSub_refl p.reason))))))


/-!
## Claims about the deployed code-tool variants
-/

/-- C6: when the Google token exchange fails, the deployed
`log_health_status` code returns the structured auth-failure object
instead of throwing, appends nothing to the sheet, the serialised result
string contains an error description, and a dispatcher serving the
wrapped handler answers any decodable batch with HTTP 200 (never 500). -/
theorem log_auth_failure_absorbed (timestamp : String) (tok : TokenResponse)
    (app : SheetsAppendResult) (e : String) (he : tok.error = some e)
    (args : LogCodeArgs) :
    (logHealthStatusCode args timestamp tok app).2 =
      .failure "Failed to authenticate with Google" e ∧
    (logHealthStatusCode args timestamp tok app).1 = [] ∧
    strContainsSub (logCodeResultString (logHealthStatusCode args timestamp tok app).2)
      "error" ∧
    ∀ (scheduleH : Handler) (protoVal : String → Handler) (body : RequestBody),
      (∀ c ∈ toolCallsOf body, ∃ f, c.function = .obj f ∧
        ∃ ps, decodeArguments f.arguments = .ok ps) →
      (handleToolPost
          (toolsRegistry (deployedLogHandler timestamp tok app args) scheduleH protoVal)
          "log_health_status" body).1.status = 200 := by
  have hcode : logHealthStatusCode args timestamp tok app =
      ([], .failure "Failed to authenticate with Google" e) := by
    simp [logHealthStatusCode, he]
  refine ⟨by rw [hcode], by rw [hcode], ?_, ?_⟩
  · rw [hcode]
    show strContainsSub ("\x7b\"error\":\"" ++ "Failed to authenticate with Google" ++
      "\",\"details\":\"" ++ e ++ "\"\x7d") "error"
    exact containsSub_append_right "\"\x7d" (containsSub_append_right e
      (containsSub_append_right "\",\"details\":\""
        (containsSub_append_right "Failed to authenticate with Google"
          ⟨("\x7b\"" : String).data, ("\":\"" : String).data, by decide⟩)))
  · intro scheduleH protoVal body hall
    obtain ⟨rs, m, hrun, _⟩ :=
      runCalls_ok_of_forall (deployedLogHandler timestamp tok app args)
        (toolCallsOf body) (by
          intro c hc
          obtain ⟨f, hf, ps, hps⟩ := hall c hc
          refine ⟨⟨c.id, logCodeResultString (logHealthStatusCode args timestamp tok app).2⟩, 1, ?_⟩
          simp [stepCall, hf, hps, deployedLogHandler])
    have hreg : toolsRegistry (deployedLogHandler timestamp tok app args) scheduleH
        protoVal "log_health_status" =
        some (deployedLogHandler timestamp tok app args) := rfl
    simp [handleToolPost, hreg, hrun]

theorem log_auth_failure_absorbed_witness :
    (logHealthStatusCode wLogArgs "2026-01-01T00:00:00Z" wTokFail wAppOk).2 =
      .failure "Failed to authenticate with Google" "invalid_grant" ∧
    (handleToolPost
        (toolsRegistry (deployedLogHandler "2026-01-01T00:00:00Z" wTokFail wAppOk wLogArgs)
          wOkHandler wProtoVal)
        "log_health_status" wGoodBody).1.status = 200 :=
  ⟨(log_auth_failure_absorbed "2026-01-01T00:00:00Z" wTokFail wAppOk "invalid_grant"
      rfl wLogArgs).1,
   (log_auth_failure_absorbed "2026-01-01T00:00:00Z" wTokFail wAppOk "invalid_grant"
      rfl wLogArgs).2.2.2 wOkHandler wProtoVal wGoodBody (by
        intro c hc
        simp [wGoodBody, toolCallsOf] at hc
        rcases hc with hc | hc <;> subst hc <;> exact ⟨_, rfl, _, rfl⟩)⟩

/-- C10: the deployed `schedule_followup` code reads the customer phone
from `env.CUSTOMER_PHONE`, but `deploy.js` provisions the tool with a
variable named `PHONE` holding the malformed literal
`call.customer.number}}`, so the scheduled call's `customer.number` is
always `undefined` in the deployed variant. -/
theorem deployed_followup_customer_number_undefined
    (vapiApiKey assistantId phoneNumberId : String)
    (customer_name : Option String) (minutes_from_now nowMs : Int) :
    envLookup (scheduleFollowupToolEnv vapiApiKey assistantId phoneNumberId) "PHONE" =
      some "call.customer.number\x7d\x7d" ∧
    envLookup (scheduleFollowupToolEnv vapiApiKey assistantId phoneNumberId)
      "CUSTOMER_PHONE" = none ∧
    (scheduleFollowupCodeRequest
        (scheduleFollowupToolEnv vapiApiKey assistantId phoneNumberId)
        customer_name minutes_from_now nowMs).customerNumber = none :=
  ⟨rfl, rfl, rfl⟩
